import Mathlib

/-!
Shallow embedding of the scheduling engine of `src/main.py` (repository
`jruano-espol/horarios`): time-of-day ranges, exams, schedule options,
the combination validator and the exhaustive enumerator, together with
theorems settling the specification claims about them.

Python integers are embedded as `Int` (bit-mask day sets as `Nat`),
Python lists as `List`, and the dynamically possible `None` exam as
`Option Exam` where a claim is about absent exams.
-/

namespace Horarios

/-- `Hour` dataclass (src/main.py lines 42-45): wall-clock hours/minutes. -/
structure Hour where
  hours : Int
  minutes : Int
  deriving DecidableEq, Repr

/-- `Hour_Range` dataclass (lines 58-61): a start/end pair of `Hour`. -/
structure Hour_Range where
  start : Hour
  «end» : Hour
  deriving DecidableEq, Repr

/-- `do_hours_overlap` (lines 74-78): the ranges overlap unless one ends
at-or-before the other starts, compared hours-first then minutes. -/
def do_hours_overlap (range1 range2 : Hour_Range) : Bool :=
  !(decide (range1.«end».hours < range2.start.hours) ||
    (decide (range1.«end».hours = range2.start.hours) &&
      decide (range1.«end».minutes ≤ range2.start.minutes)) ||
    decide (range1.start.hours > range2.«end».hours) ||
    (decide (range1.start.hours = range2.«end».hours) &&
      decide (range1.start.minutes ≥ range2.«end».minutes)))

/-- Pairwise `any` over ordered pairs i < j of a list: the common shape of
the double loops in `check_hours_overlap` (lines 81-88) and
`check_exams_overlap` (lines 109-116). -/
def pairwise_any (f : α → α → Bool) : List α → Bool
  | [] => false
  | x :: xs => xs.any (f x) || pairwise_any f xs

/-- `check_hours_overlap` (lines 81-88): some ordered pair of ranges overlaps. -/
def check_hours_overlap (ranges : List Hour_Range) : Bool :=
  if ranges.length ≤ 1 then false
  else pairwise_any do_hours_overlap ranges

/-- `Exam` dataclass (lines 91-95). -/
structure Exam where
  id : Int
  hours : Hour_Range
  in_person : Bool
  deriving DecidableEq, Repr

/-- `do_exams_overlap` (lines 103-106) on present exams, as its type
annotation declares: differing ids never conflict, equal ids conflict
iff the exam times overlap. -/
def do_exams_overlap (exam1 exam2 : Exam) : Bool :=
  if exam1.id ≠ exam2.id then false
  else do_hours_overlap exam1.hours exam2.hours

/-- Dynamic behavior of `do_exams_overlap` (lines 103-106) when an argument
may be Python `None` (which `parse_title`, lines 258-262, and hence
`parse_schedule` can produce): evaluating `exam1.id != exam2.id` performs
attribute access on each argument, raising `AttributeError` when it is
`None`; otherwise the function behaves as `do_exams_overlap`. -/
def do_exams_overlap_dyn : Option Exam → Option Exam → Except String Bool
  | none, _ => .error "AttributeError"
  | some _, none => .error "AttributeError"
  | some e1, some e2 => .ok (do_exams_overlap e1 e2)

/-- `check_exams_overlap` (lines 109-116): some ordered pair of exams conflicts. -/
def check_exams_overlap (exams : List Exam) : Bool :=
  if exams.length ≤ 1 then false
  else pairwise_any do_exams_overlap exams

/-- `Schedule` dataclass (lines 119-127). `days` is the 5-bit weekday mask
(bit i = weekday i, Monday = bit 0). The non-owning `associated_class`
back-reference, used only for display, is embedded as an index into the
class list. -/
structure Schedule where
  group : Int
  days : Nat
  hours : Hour_Range
  in_person : Bool
  available : Int
  exam : Exam
  associated_class : Nat
  deriving DecidableEq, Repr

/-- `is_schedule_valid` (lines 130-137): the option's meeting range, in
minutes since midnight, lies inside the accepted window. -/
def is_schedule_valid (schedule : Schedule) (accepted : Hour_Range) : Bool :=
  let schedule_start := schedule.hours.start.hours * 60 + schedule.hours.start.minutes
  let schedule_end := schedule.hours.«end».hours * 60 + schedule.hours.«end».minutes
  let accepted_start := accepted.start.hours * 60 + accepted.start.minutes
  let accepted_end := accepted.«end».hours * 60 + accepted.«end».minutes
  decide (schedule_start ≥ accepted_start) && decide (schedule_end ≤ accepted_end)

/-- The per-day grouping built by the loop at lines 145-151: the meeting
ranges of the schedules active on weekday `d`, in list order. -/
def day_hours (schedules : List Schedule) (d : Nat) : List Hour_Range :=
  (schedules.filter (fun s => (s.days &&& (1 <<< d)) != 0)).map Schedule.hours

/-- `is_schedule_arrangement_valid` (lines 140-155). The Python function
early-returns `True` for lists of length at most 1; otherwise it returns
`False` as soon as the exam check, a per-schedule window check, or a
per-weekday pairwise overlap check fails, and `True` at the end. The
interleaved loop that checks windows while building `day_hours` is
value-equal to checking all windows and then all five days. -/
def is_schedule_arrangement_valid (schedules : List Schedule) (accepted : Hour_Range) : Bool :=
  if schedules.length ≤ 1 then true
  else if check_exams_overlap (schedules.map Schedule.exam) then false
  else if schedules.any (fun s => !is_schedule_valid s accepted) then false
  else if (List.range 5).any (fun d => check_hours_overlap (day_hours schedules d)) then false
  else true

/-- `Class` dataclass (lines 158-162). `exam` is the class-level default
exam, `None` when the title line carries no exam (lines 258-262). -/
structure Class where
  name : String
  options : List Schedule
  exam : Option Exam
  deriving DecidableEq, Repr

/-- `itertools.product` order on lists of lists: first factor slowest,
last factor fastest; the product of no factors is one empty tuple. -/
def itertools_product : List (List α) → List (List α)
  | [] => [[]]
  | l :: ls => l.flatMap (fun x => (itertools_product ls).map (fun t => x :: t))

/-- `generate_all_valid_choices` (lines 306-317): iterate the Cartesian
product of the classes' option lists in `itertools.product` order (the
Python builds index tuples and maps each index to the class's option,
which traverses exactly the product of the option lists) and keep, in
order, the choices `is_schedule_arrangement_valid` accepts. -/
def generate_all_valid_choices (classes : List Class) (accepted : Hour_Range) :
    List (List Schedule) :=
  (itertools_product (classes.map Class.options)).filter
    (fun choice => is_schedule_arrangement_valid choice accepted)

/-- Minutes since midnight, the quantity `is_schedule_valid` computes at
lines 131-134 and the claims' reading of hour:minute comparisons. -/
def minutes_of_day (h : Hour) : Int :=
  h.hours * 60 + h.minutes

/-- An `Hour` is well-formed when its minutes lie in [0, 59] (§3 of the
spec: minute in [0,59]). -/
def valid_hour (h : Hour) : Prop :=
  0 ≤ h.minutes ∧ h.minutes < 60

/-- Both endpoints of the range are well-formed. -/
def valid_range (r : Hour_Range) : Prop :=
  valid_hour r.start ∧ valid_hour r.«end»

instance (h : Hour) : Decidable (valid_hour h) := by
  unfold valid_hour; infer_instance

instance (r : Hour_Range) : Decidable (valid_range r) := by
  unfold valid_range; infer_instance

/-! ### Helper lemmas -/

/-- Membership in the `itertools.product` of a list of lists is pointwise
membership in the factors. -/
theorem mem_itertools_product {α : Type _} :
    ∀ (ls : List (List α)) (t : List α),
      t ∈ itertools_product ls ↔ List.Forall₂ (fun x l => x ∈ l) t ls
  | [], t => by
    simp [itertools_product, List.forall₂_nil_right_iff]
  | l :: ls, t => by
    simp only [itertools_product, List.mem_flatMap, List.mem_map,
      List.forall₂_cons_right_iff, mem_itertools_product ls]
    constructor
    · rintro ⟨x, hx, t', ht', rfl⟩
      exact ⟨x, t', hx, ht', rfl⟩
    · rintro ⟨x, t', hx, ht', rfl⟩
      exact ⟨x, hx, t', ht', rfl⟩

/-- A product with an empty factor is empty. -/
theorem itertools_product_eq_nil {α : Type _} :
    ∀ (ls : List (List α)), [] ∈ ls → itertools_product ls = []
  | l :: ls, h => by
    rcases List.mem_cons.mp h with h | h
    · subst h; simp [itertools_product]
    · simp [itertools_product, itertools_product_eq_nil ls h]

/-- The pairwise double loop reports `true` when the list contains an
ordered pair related by `f`. -/
theorem pairwise_any_split {α : Type _} (f : α → α → Bool) (x y : α) (h : f x y = true)
    (A B C : List α) : pairwise_any f (A ++ x :: (B ++ y :: C)) = true := by
  induction A with
  | nil =>
    rw [List.nil_append]
    show ((B ++ y :: C).any (f x) || pairwise_any f (B ++ y :: C)) = true
    rw [Bool.or_eq_true]
    exact Or.inl (List.any_eq_true.mpr ⟨y, by simp, h⟩)
  | cons a A ih =>
    rw [List.cons_append]
    show ((A ++ x :: (B ++ y :: C)).any (f a) || pairwise_any f (A ++ x :: (B ++ y :: C))) = true
    rw [Bool.or_eq_true]
    exact Or.inr ih

/-- `check_hours_overlap` reports `true` on a list containing an ordered
overlapping pair. -/
theorem check_hours_overlap_split (x y : Hour_Range) (h : do_hours_overlap x y = true)
    (A B C : List Hour_Range) : check_hours_overlap (A ++ x :: (B ++ y :: C)) = true := by
  unfold check_hours_overlap
  rw [if_neg]
  · exact pairwise_any_split _ x y h A B C
  · simp only [List.length_append, List.length_cons]
    omega

/-- `day_hours` of a list split around two schedules active on day `d`
keeps both meeting ranges, in order. -/
theorem day_hours_split (pre mid post : List Schedule) (s1 s2 : Schedule) (d : Nat)
    (h1 : ((s1.days &&& (1 <<< d)) != 0) = true)
    (h2 : ((s2.days &&& (1 <<< d)) != 0) = true) :
    day_hours (pre ++ s1 :: (mid ++ s2 :: post)) d =
      day_hours pre d ++ s1.hours :: (day_hours mid d ++ s2.hours :: day_hours post d) := by
  unfold day_hours
  simp [List.filter_append, List.filter_cons, h1, h2]

/-! ### Concrete sample data, used by the concrete parts of the claims -/

/-- Abbreviation for a literal `Hour_Range`. -/
def hr (h1 m1 h2 m2 : Int) : Hour_Range := ⟨⟨h1, m1⟩, ⟨h2, m2⟩⟩

/-- The accepted window hardcoded in `main` (line 509): `9:00-16:30`. -/
def accepted0 : Hour_Range := hr 9 0 16 30

/-- A sample exam with the given id. -/
def demo_exam (i : Int) : Exam := ⟨i, hr 9 0 10 0, true⟩

/-- A sample schedule option with the given group, day mask, meeting range,
exam id and class index. -/
def demo_schedule (g : Int) (days : Nat) (r : Hour_Range) (eid : Int) (ci : Nat) : Schedule :=
  ⟨g, days, r, true, 10, demo_exam eid, ci⟩

/-- A Monday 07:00-08:00 option: it violates the `accepted0` window. -/
def window_violator : Schedule := demo_schedule 1 1 (hr 7 0 8 0) 1 0

/-- Monday 09:00-10:00, fits `accepted0`, exam id 1, class 0. -/
def back_to_back_1 : Schedule := demo_schedule 1 1 (hr 9 0 10 0) 1 0

/-- Monday 10:00-11:00, fits `accepted0`, exam id 2, class 1. -/
def back_to_back_2 : Schedule := demo_schedule 2 1 (hr 10 0 11 0) 2 1

/-- Monday 09:00-10:30, fits `accepted0`, exam id 1, class 0. -/
def overlapping_1 : Schedule := demo_schedule 1 1 (hr 9 0 10 30) 1 0

/-- Monday 10:00-11:00, fits `accepted0`, exam id 2, class 1. -/
def overlapping_2 : Schedule := demo_schedule 2 1 (hr 10 0 11 0) 2 1

/-- Option exactly filling the `accepted0` window. -/
def exact_fit : Schedule := demo_schedule 1 1 (hr 9 0 16 30) 1 0

/-- Option ending one minute past the `accepted0` window. -/
def past_end : Schedule := demo_schedule 1 1 (hr 9 0 16 31) 1 0

/-- Option starting one minute before the `accepted0` window. -/
def before_start : Schedule := demo_schedule 1 1 (hr 8 59 16 30) 1 0

def sA1 : Schedule := demo_schedule 1 1 (hr 9 0 10 0) 1 0
def sA2 : Schedule := demo_schedule 2 1 (hr 10 0 11 0) 1 0
def sB1 : Schedule := demo_schedule 1 2 (hr 9 0 10 0) 2 1
def sB2 : Schedule := demo_schedule 2 2 (hr 10 0 11 0) 2 1
def sB3 : Schedule := demo_schedule 3 2 (hr 11 0 12 0) 2 1
def sC1 : Schedule := demo_schedule 1 4 (hr 9 0 10 0) 3 2
def sC2 : Schedule := demo_schedule 2 4 (hr 10 0 11 0) 3 2

/-- Three conflict-free classes with 2, 3 and 2 options: classes meet on
Monday, Tuesday and Wednesday respectively and carry distinct exam ids,
so every candidate combination is valid. -/
def demo_classes : List Class :=
  [⟨"A", [sA1, sA2], none⟩, ⟨"B", [sB1, sB2, sB3], none⟩, ⟨"C", [sC1, sC2], none⟩]

/-- A class with no schedule options. -/
def empty_class : Class := ⟨"E", [], none⟩

/-- A class with two options, used beside `empty_class`. -/
def nonempty_class : Class := ⟨"N", [sA1, sA2], none⟩

/-! ### Claims -/

/-- C1 (counterexample): the claim that a one-option combination is valid
iff the option passes the window check fails: `window_violator` (Monday
07:00-08:00) fails `is_schedule_valid` against the 09:00-16:30 window,
yet `is_schedule_arrangement_valid` accepts the singleton combination. -/
theorem claim_C1_counterexample :
    is_schedule_arrangement_valid [window_violator] accepted0 = true ∧
    is_schedule_valid window_violator accepted0 = false := by
  exact ⟨rfl, by decide⟩

/-- C1 (amended): `is_schedule_arrangement_valid` returns `true` on every
single-option combination unconditionally — the length ≤ 1 early return
at line 141 skips the window check entirely. -/
theorem claim_C1 (s : Schedule) (accepted : Hour_Range) :
    is_schedule_arrangement_valid [s] accepted = true := by
  simp [is_schedule_arrangement_valid]

/-- C2 (counterexample): on an absent exam, `do_exams_overlap` does not
return `false`: the attribute access `exam1.id` raises `AttributeError`
(an error result, not the value `ok false`). -/
theorem claim_C2_counterexample :
    do_exams_overlap_dyn none (some (demo_exam 1)) = Except.error "AttributeError" ∧
    (do_exams_overlap_dyn (some (demo_exam 1)) none).isOk = false := by
  exact ⟨rfl, rfl⟩

/-- C2 (amended): whenever either exam is absent (`None`),
`do_exams_overlap` raises `AttributeError` instead of returning `false`;
in particular it never reports a conflict for an absent exam. -/
theorem claim_C2 (e1 e2 : Option Exam) (h : e1 = none ∨ e2 = none) :
    do_exams_overlap_dyn e1 e2 = Except.error "AttributeError" := by
  match e1, e2 with
  | none, _ => rfl
  | some x, none => rfl
  | some x, some y => rcases h with h | h <;> exact absurd h (by simp)

/-- C2 witness: the amended claim at the concrete input `(None, demo_exam 1)`. -/
theorem claim_C2_witness :
    ((none : Option Exam) = none ∨ (some (demo_exam 1) : Option Exam) = none) ∧
    do_exams_overlap_dyn none (some (demo_exam 1)) = Except.error "AttributeError" :=
  ⟨Or.inl rfl, claim_C2 none (some (demo_exam 1)) (Or.inl rfl)⟩

/-- C3: `generate_all_valid_choices` returns exactly the members of the
Cartesian product of the classes' option lists that satisfy
`is_schedule_arrangement_valid`; on three conflict-free classes with
2, 3 and 2 options it returns all 12 combinations in product order,
the first class's option changing slowest and the last class's fastest. -/
theorem claim_C3 :
    (∀ (classes : List Class) (accepted : Hour_Range) (choice : List Schedule),
        choice ∈ generate_all_valid_choices classes accepted ↔
          List.Forall₂ (fun s c => s ∈ c.options) choice classes ∧
          is_schedule_arrangement_valid choice accepted = true) ∧
    generate_all_valid_choices demo_classes accepted0 =
      [[sA1, sB1, sC1], [sA1, sB1, sC2], [sA1, sB2, sC1], [sA1, sB2, sC2],
       [sA1, sB3, sC1], [sA1, sB3, sC2], [sA2, sB1, sC1], [sA2, sB1, sC2],
       [sA2, sB2, sC1], [sA2, sB2, sC2], [sA2, sB3, sC1], [sA2, sB3, sC2]] := by
  constructor
  · intro classes accepted choice
    simp only [generate_all_valid_choices, List.mem_filter, mem_itertools_product,
      List.forall₂_map_right_iff]
  · rfl

/-- C4: for well-formed ranges, `do_hours_overlap` is `false` exactly when
one range ends at or before the other starts, compared as minutes of the
day; back-to-back 09:00-10:00 / 10:00-11:00 do not overlap, while
09:00-10:01 / 10:00-11:00 do. -/
theorem claim_C4 (a b : Hour_Range) (ha : valid_range a) (hb : valid_range b) :
    (do_hours_overlap a b = false ↔
      minutes_of_day a.«end» ≤ minutes_of_day b.start ∨
      minutes_of_day b.«end» ≤ minutes_of_day a.start) ∧
    do_hours_overlap (hr 9 0 10 0) (hr 10 0 11 0) = false ∧
    do_hours_overlap (hr 9 0 10 1) (hr 10 0 11 0) = true := by
  refine ⟨?_, by decide, by decide⟩
  obtain ⟨⟨h1, h2⟩, h3, h4⟩ := ha
  obtain ⟨⟨h5, h6⟩, h7, h8⟩ := hb
  simp only [do_hours_overlap, minutes_of_day, Bool.not_eq_false', Bool.or_eq_true,
    Bool.and_eq_true, decide_eq_true_eq]
  omega

/-- C4 witness: the characterization at the concrete back-to-back ranges. -/
theorem claim_C4_witness :
    valid_range (hr 9 0 10 0) ∧ valid_range (hr 10 0 11 0) ∧
    ((do_hours_overlap (hr 9 0 10 0) (hr 10 0 11 0) = false ↔
        minutes_of_day (hr 9 0 10 0).«end» ≤ minutes_of_day (hr 10 0 11 0).start ∨
        minutes_of_day (hr 10 0 11 0).«end» ≤ minutes_of_day (hr 9 0 10 0).start) ∧
      do_hours_overlap (hr 9 0 10 0) (hr 10 0 11 0) = false ∧
      do_hours_overlap (hr 9 0 10 1) (hr 10 0 11 0) = true) :=
  ⟨by decide, by decide, claim_C4 (hr 9 0 10 0) (hr 10 0 11 0) (by decide) (by decide)⟩

/-- C5: on present exams, `do_exams_overlap` is `true` exactly when the
ids are equal and the exam time ranges overlap, and is `false` whenever
the ids differ, regardless of time overlap. -/
theorem claim_C5 (e1 e2 : Exam) :
    (do_exams_overlap e1 e2 = true ↔
      e1.id = e2.id ∧ do_hours_overlap e1.hours e2.hours = true) ∧
    (e1.id ≠ e2.id → do_exams_overlap e1 e2 = false) := by
  constructor
  · unfold do_exams_overlap
    by_cases h : e1.id = e2.id <;> simp [h]
  · intro h
    simp [do_exams_overlap, h]

/-- C5 witness: two exams with equal ids at identical overlapping times
conflict; a differing-id pair at the same times does not. -/
theorem claim_C5_witness :
    ((do_exams_overlap (demo_exam 1) (demo_exam 1) = true ↔
        (demo_exam 1).id = (demo_exam 1).id ∧
        do_hours_overlap (demo_exam 1).hours (demo_exam 1).hours = true) ∧
      ((demo_exam 1).id ≠ (demo_exam 1).id → do_exams_overlap (demo_exam 1) (demo_exam 1) = false)) ∧
    do_exams_overlap (demo_exam 1) (demo_exam 2) = false :=
  ⟨claim_C5 (demo_exam 1) (demo_exam 1), by decide⟩

/-- C6: `is_schedule_valid` holds exactly when the option's start minute
is at least the window's start minute and its end minute at most the
window's end minute; exact bounds are accepted, and one extra minute past
either bound is rejected. -/
theorem claim_C6 (s : Schedule) (accepted : Hour_Range) :
    (is_schedule_valid s accepted = true ↔
      minutes_of_day accepted.start ≤ minutes_of_day s.hours.start ∧
      minutes_of_day s.hours.«end» ≤ minutes_of_day accepted.«end») ∧
    is_schedule_valid exact_fit accepted0 = true ∧
    is_schedule_valid past_end accepted0 = false ∧
    is_schedule_valid before_start accepted0 = false := by
  refine ⟨?_, by decide, by decide, by decide⟩
  simp only [is_schedule_valid, minutes_of_day, Bool.and_eq_true, decide_eq_true_eq,
    ge_iff_le]

/-- C7: a combination containing two options both active on weekday `d`
with overlapping meeting ranges is rejected, and the back-to-back Monday
pair 09:00-10:00 / 10:00-11:00 forms a valid combination. -/
theorem claim_C7 (pre mid post : List Schedule) (s1 s2 : Schedule) (accepted : Hour_Range)
    (d : Nat) (hd : d < 5)
    (h1 : ((s1.days &&& (1 <<< d)) != 0) = true)
    (h2 : ((s2.days &&& (1 <<< d)) != 0) = true)
    (hov : do_hours_overlap s1.hours s2.hours = true) :
    is_schedule_arrangement_valid (pre ++ s1 :: (mid ++ s2 :: post)) accepted = false ∧
    is_schedule_arrangement_valid [back_to_back_1, back_to_back_2] accepted0 = true := by
  refine ⟨?_, by decide⟩
  have hlen : ¬((pre ++ s1 :: (mid ++ s2 :: post)).length ≤ 1) := by
    simp only [List.length_append, List.length_cons]
    omega
  have hday : ((List.range 5).any
      (fun i => check_hours_overlap (day_hours (pre ++ s1 :: (mid ++ s2 :: post)) i))) = true :=
    List.any_eq_true.mpr ⟨d, List.mem_range.mpr hd, by
      rw [day_hours_split pre mid post s1 s2 d h1 h2]
      exact check_hours_overlap_split _ _ hov _ _ _⟩
  unfold is_schedule_arrangement_valid
  rw [if_neg hlen]
  simp [hday]

/-- C7 witness: the rejection at the concrete overlapping Monday pair
09:00-10:30 / 10:00-11:00. -/
theorem claim_C7_witness :
    0 < 5 ∧
    ((overlapping_1.days &&& (1 <<< 0)) != 0) = true ∧
    ((overlapping_2.days &&& (1 <<< 0)) != 0) = true ∧
    do_hours_overlap overlapping_1.hours overlapping_2.hours = true ∧
    (is_schedule_arrangement_valid ([] ++ overlapping_1 :: ([] ++ overlapping_2 :: []))
        accepted0 = false ∧
      is_schedule_arrangement_valid [back_to_back_1, back_to_back_2] accepted0 = true) :=
  ⟨by decide, by decide, by decide, by decide,
    claim_C7 [] [] [] overlapping_1 overlapping_2 accepted0 0 (by decide) (by decide)
      (by decide) (by decide)⟩

/-- C8: if some class has an empty option list, the Cartesian product is
empty and `generate_all_valid_choices` returns the empty list, as an
ordinary value. -/
theorem claim_C8 (classes : List Class) (accepted : Hour_Range) (c : Class)
    (hc : c ∈ classes) (hopt : c.options = []) :
    generate_all_valid_choices classes accepted = [] := by
  unfold generate_all_valid_choices
  have h : itertools_product (classes.map Class.options) = [] :=
    itertools_product_eq_nil _ (List.mem_map.mpr ⟨c, hc, hopt⟩)
  rw [h]
  rfl

/-- C8 witness: a two-class catalog whose second class has no options. -/
theorem claim_C8_witness :
    empty_class ∈ [nonempty_class, empty_class] ∧ empty_class.options = [] ∧
    generate_all_valid_choices [nonempty_class, empty_class] accepted0 = [] :=
  ⟨by decide, rfl,
    claim_C8 [nonempty_class, empty_class] accepted0 empty_class (by decide) rfl⟩

/-- C9: `do_hours_overlap` is symmetric, and `generate_all_valid_choices`
is a pure function of its inputs: two calls on the same catalog and
window produce the identical ordered result list. -/
theorem claim_C9 :
    (∀ a b : Hour_Range, do_hours_overlap a b = do_hours_overlap b a) ∧
    (∀ (classes : List Class) (accepted : Hour_Range),
      generate_all_valid_choices classes accepted =
        generate_all_valid_choices classes accepted) := by
  constructor
  · intro a b
    rw [Bool.eq_iff_iff]
    simp only [do_hours_overlap, Bool.not_eq_true', Bool.or_eq_false_iff,
      Bool.and_eq_false_iff, decide_eq_false_iff_not, not_lt, not_le]
    constructor <;> intro h <;> omega
  · intro classes accepted
    rfl

/-- C10: on zero classes the product of no factors is the single empty
tuple, the empty combination passes the length ≤ 1 early return of the
validator, and `generate_all_valid_choices` returns exactly it. -/
theorem claim_C10 (accepted : Hour_Range) :
    generate_all_valid_choices [] accepted = [[]] ∧
    is_schedule_arrangement_valid [] accepted = true :=
  ⟨rfl, rfl⟩

end Horarios
